import Mathlib

/-
Verification of the update orchestration logic of `helm/update-minecraft.py`
(class `MinecraftUpdater`).  The Python methods are shallowly embedded as pure
Lean functions.  External side-effecting calls (kubectl, helm, RCON) are
modelled by an environment record that fixes the outcome of each call site;
every function additionally returns the list of real external commands it
issues, so that frame/effect properties (dry-run behaviour, which commands are
issued when) can be stated.  The orchestrator `perform_update` threads an
explicit session state (`current_step`, `rollback_needed`, `success`) and a
trace of events, where each event is tagged with the value of
`rollback_needed` at the moment the event was produced.
-/

set_option maxRecDepth 4000

namespace MCUpdate

/-! String primitives.  The core library's `String.splitOn`, `trim` and
`toNat?` are defined by well-founded recursion and do not reduce inside the
kernel, so the Python string operations used by the script are modelled here
by structurally recursive functions on the character list. -/

/-- ASCII whitespace as stripped by Python `str.strip()`. -/
def isPyWs (c : Char) : Bool :=
  c.toNat = 32 || c.toNat = 9 || c.toNat = 10 || c.toNat = 13 ||
  c.toNat = 11 || c.toNat = 12

/-- Python `s.strip()`. -/
def pyStrip (s : String) : String :=
  String.mk (((s.data.dropWhile isPyWs).reverse.dropWhile isPyWs).reverse)

/-- Python truthiness of a string (`not s` is true exactly on `""`). -/
def strEmpty (s : String) : Bool :=
  s.data.isEmpty

/-- Splitting worker: cuts the haystack at every non-overlapping leftmost
occurrence of the (nonempty) separator; the fuel is an upper bound on the
haystack length, making the recursion structural. -/
def pySplitAux (sep : List Char) : Nat → List Char → List Char →
    List (List Char)
  | 0, acc, rest => [acc.reverse ++ rest]
  | _ + 1, acc, [] => [acc.reverse]
  | fuel + 1, acc, c :: cs =>
    if sep.isPrefixOf (c :: cs) then
      acc.reverse :: pySplitAux sep fuel [] (List.drop sep.length (c :: cs))
    else
      pySplitAux sep fuel (c :: acc) cs

/-- Python `hay.split(sep)` for nonempty `sep` (the script never splits on an
empty separator). -/
def pySplit (hay sep : String) : List String :=
  if sep.data.isEmpty then [hay]
  else (pySplitAux sep.data (hay.data.length + 1) [] hay.data).map String.mk

/-- Python substring containment `needle in hay` (empty needle is always in). -/
def pyContains (hay needle : String) : Bool :=
  strEmpty needle || (pySplit hay needle).length != 1

/-- The numeric value of a decimal digit character. -/
def digitVal (c : Char) : Option Nat :=
  if 48 ≤ c.toNat && c.toNat ≤ 57 then some (c.toNat - 48) else none

/-- Accumulating decimal evaluation of a digit list. -/
def digitsValAux : List Char → Nat → Option Nat
  | [], acc => some acc
  | c :: cs, acc =>
    match digitVal c with
    | some d => digitsValAux cs (acc * 10 + d)
    | none => none

/-- Decimal value of a nonempty all-digit list. -/
def natOfDigits : List Char → Option Nat
  | [] => none
  | c :: cs => digitsValAux (c :: cs) 0

/-- Python `int(s)`: strip whitespace, optional sign, at least one decimal
digit.  (Digit-grouping underscores and non-ASCII digits accepted by CPython
are not modelled; the script only ever feeds it command output such as
counts.) -/
def pyInt? (s : String) : Option Int :=
  match (pyStrip s).data with
  | [] => none
  | c :: cs =>
    if c.toNat = 45 then (natOfDigits cs).map (fun n => -(n : Int))
    else if c.toNat = 43 then (natOfDigits cs).map (fun n => (n : Int))
    else (natOfDigits (c :: cs)).map (fun n => (n : Int))

/-- Decimal rendering of a natural number (for pod-name interpolation). -/
def natStrAux : Nat → Nat → List Char
  | 0, _ => []
  | fuel + 1, n =>
    if n < 10 then [Char.ofNat (48 + n)]
    else natStrAux fuel (n / 10) ++ [Char.ofNat (48 + n % 10)]

/-- Decimal rendering of a natural number. -/
def natStr (n : Nat) : String :=
  String.mk (natStrAux (n + 1) n)

/-- Direction argument of `sync_world_data` (`"to-backup"` / `"from-backup"`). -/
inductive Direction where
  | toBackup
  | fromBackup
deriving DecidableEq, Repr

/-- The configuration flags and names of `MinecraftUpdater.__init__` that feed
the orchestration logic (`args.release`, `args.bungee_release`,
`args.rcon_password`, `args.dry_run`, `args.force_restart`,
`args.skip_validation`). -/
structure Config where
  minecraft_release : String
  bungee_release : String
  rcon_password : String
  dry_run : Bool
  force_restart : Bool
  skip_validation : Bool
deriving DecidableEq, Repr

/-- `MinecraftUpdater.get_pod_name`: pod name is a pure function of release
name and slot index. -/
def get_pod_name (cfg : Config) (index : Nat) : String :=
  cfg.minecraft_release ++ "-" ++ natStr index

/-- A real external command issued by the script (kubectl / helm / an RCON
session).  These are only produced on the non-dry-run ("real effect") paths,
with the single exception of `check_for_rsync`, which has no dry-run guard in
the source. -/
inductive Cmd where
  | scale (replicas : Nat)
  | waitPod (pod : String)
  | delPod (pod : String)
  | execPod (pod : String) (sh : String)
  | getPods
  | getConfigmap
  | helmUpgrade
  | rconSession
deriving DecidableEq, Repr

/-- Trace events: either a real external command, or an orchestrator-level
call marker recording that `perform_update` invoked one of its component
operations (these markers fire also in dry-run mode, where the component
simulates the effect). -/
inductive Event where
  | cmd (c : Cmd)
  | scaleCall (replicas : Nat)
  | waitCall (pod : String)
  | syncCall (pod : String) (d : Direction)
  | switchCall (idx : Nat)
deriving DecidableEq, Repr

/-- A trace event tagged with the value of `rollback_needed` at the moment it
was produced. -/
structure TEvent where
  rb : Bool
  ev : Event
deriving DecidableEq, Repr

/-- Tag a batch of real commands with the current rollback flag. -/
def tag (rb : Bool) (cs : List Cmd) : List TEvent :=
  cs.map (fun c => { rb := rb, ev := Event.cmd c })

/-- Tag a single orchestrator-level event. -/
def tag1 (rb : Bool) (e : Event) : TEvent :=
  { rb := rb, ev := e }

/-! ### Control-plane primitives -/

/-- `MinecraftUpdater.scale_statefulset`: dry-run returns success without
issuing anything; otherwise issues `kubectl scale` whose success is given by
the environment. -/
def scale_statefulset (cfg : Config) (ok : Bool) (replicas : Nat) :
    Bool × List Cmd :=
  if cfg.dry_run then (true, [])
  else (ok, [Cmd.scale replicas])

/-- `MinecraftUpdater.wait_for_pod_ready`: dry-run simulates readiness;
otherwise `kubectl wait`, success per environment (false = timeout). -/
def wait_for_pod_ready (cfg : Config) (ok : Bool) (pod : String) :
    Bool × List Cmd :=
  if cfg.dry_run then (true, [])
  else (ok, [Cmd.waitPod pod])

/-- Outcome of the `kubectl delete pod` call in `delete_pod`: success, a
`CalledProcessError`, or a `TimeoutExpired`. -/
inductive DeleteOutcome where
  | ok
  | cmdError
  | timeout
deriving DecidableEq, Repr

/-- `MinecraftUpdater.delete_pod`: dry-run returns success; a timeout of the
delete command is logged and treated as success ("Fortfahren..."). -/
def delete_pod (cfg : Config) (o : DeleteOutcome) (pod : String) :
    Bool × List Cmd :=
  if cfg.dry_run then (true, [])
  else
    (match o with
     | DeleteOutcome.ok => true
     | DeleteOutcome.cmdError => false
     | DeleteOutcome.timeout => true,
     [Cmd.delPod pod])

/-! ### RCON-based operations (Live-Service Notifier) -/

/-- `MinecraftUpdater.notify_players`: without an RCON password it returns
failure before the dry-run check; dry-run simulates success; otherwise the
result is success iff the RCON connection could be established (all protocol
errors inside are swallowed). -/
def notify_players (cfg : Config) (connect : Bool) (_message : String) :
    Bool × List Cmd :=
  if strEmpty cfg.rcon_password then (false, [])
  else if cfg.dry_run then (true, [])
  else (connect, [Cmd.rconSession])

/-- `MinecraftUpdater.save_world` (`save-all flush` over RCON); same
failure-handling shape as `notify_players`. -/
def save_world (cfg : Config) (connect : Bool) : Bool × List Cmd :=
  if strEmpty cfg.rcon_password then (false, [])
  else if cfg.dry_run then (true, [])
  else (connect, [Cmd.rconSession])

/-- The parse of the `list` command response in
`MinecraftUpdater.get_online_players`:
`count_part = parts[0].split("are")[1].split("of")[0].strip()` followed by
`int(count_part)`.  A missing second `split("are")` element raises IndexError
in the source, which the surrounding handler converts to `None`; an
unparseable count raises ValueError, also ending in `None`.  Both are `none`
here. -/
def parse_player_count (resp : String) : Option Int :=
  let parts := pySplit resp ":"
  match pySplit (parts.headD "") "are" with
  | _ :: seg :: _ => pyInt? ((pySplit seg "of").headD "")
  | _ => none

/-- `MinecraftUpdater.get_online_players`: no password gives `none` (step is
skipped); dry-run returns `some 0`; a failed connection or a failed/
unparseable `list` response gives `none`. -/
def get_online_players (cfg : Config) (connect : Bool) (resp : Option String) :
    Option Int × List Cmd :=
  if strEmpty cfg.rcon_password then (none, [])
  else if cfg.dry_run then (some 0, [])
  else if !connect then (none, [Cmd.rconSession])
  else
    match resp with
    | none => (none, [Cmd.rconSession])
    | some s =>
      match parse_player_count s with
      | some n => (some n, [Cmd.rconSession])
      | none => (none, [Cmd.rconSession])

/-! ### Helm -/

/-- `MinecraftUpdater.upgrade_helm_release`: dry-run simulates success;
otherwise a `helm upgrade` is issued (with or without the chart path — the
two variants issue the same logical command here). -/
def upgrade_helm_release (cfg : Config) (ok : Bool) : Bool × List Cmd :=
  if cfg.dry_run then (true, [])
  else (ok, [Cmd.helmUpgrade])

/-! ### BungeeCord routing -/

/-- Single-quote character (for modelling Python `strip("'")`). -/
def squote : Char := Char.ofNat 39

/-- Python `s.strip("'")`. -/
def stripQuotes (s : String) : String :=
  String.mk (((s.data.dropWhile (fun c => c = squote)).reverse.dropWhile
    (fun c => c = squote)).reverse)

/-- Environment of one `switch_bungee_priority` call: the outcome of the
`kubectl get pods` name lookup (`none` = CalledProcessError, falling back to
`"{bungee_release}-0"`), and whether the `bungee-script.sh switch` exec
succeeded. -/
structure SwitchEnv where
  nameProbe : Option String
  scriptOk : Bool

/-- `MinecraftUpdater.get_bungee_pod_name`: reads the pod name via
`kubectl get pods`, falling back to `"{bungee_release}-0"` on failure. -/
def get_bungee_pod_name (cfg : Config) (env : SwitchEnv) : String × List Cmd :=
  (match env.nameProbe with
   | some s => stripQuotes s
   | none => cfg.bungee_release ++ "-0",
   [Cmd.getPods])

/-- `MinecraftUpdater.run_pod_script`. -/
def run_pod_script (pod scriptPath args : String) (ok : Bool) :
    Bool × List Cmd :=
  (ok, [Cmd.execPod pod (scriptPath ++ " " ++ args)])

/-- `MinecraftUpdater.switch_bungee_priority`: dry-run simulates success
before any lookup; otherwise resolves the bungee pod and runs
`/scripts/bungee-script.sh switch <idx>` in it. -/
def switch_bungee_priority (cfg : Config) (env : SwitchEnv) (idx : Nat) :
    Bool × List Cmd :=
  if cfg.dry_run then (true, [])
  else
    let np := get_bungee_pod_name cfg env
    if strEmpty np.1 then (false, np.2)
    else
      let rs := run_pod_script np.1 "/scripts/bungee-script.sh"
        ("switch " ++ natStr idx) env.scriptOk
      (rs.1, np.2 ++ rs.2)

/-! ### rsync availability probe -/

/-- The probe command of `check_for_rsync`. -/
def rsyncProbeCmd : String := "command -v rsync"

/-- The install-attempt command of `check_for_rsync`. -/
def rsyncInstallCmd : String :=
  "apk add --no-cache rsync 2>/dev/null || apt-get update && apt-get install -y rsync 2>/dev/null || echo INSTALLATION_FAILED"

/-- Environment of one `check_for_rsync` call: outcomes of the probe, the
install attempt and the re-probe (each `none` = the `kubectl exec` failed). -/
structure RsyncEnv where
  probe : Option String
  install : Option String
  probe2 : Option String

/-- `MinecraftUpdater.check_for_rsync`.  NOTE: the source has no dry-run
guard in this method — the `kubectl exec` commands below are issued even in
dry-run mode. -/
def check_for_rsync (cfg : Config) (env : RsyncEnv) (pod : String) :
    Bool × List Cmd :=
  let _ := cfg
  let e1 := [Cmd.execPod pod rsyncProbeCmd]
  let probeEmpty :=
    match env.probe with
    | none => true
    | some s => strEmpty (pyStrip s)
  if probeEmpty then
    let e2 := e1 ++ [Cmd.execPod pod rsyncInstallCmd]
    let installFailed :=
      match env.install with
      | some s => pyContains s "INSTALLATION_FAILED"
      | none => false
    if installFailed then (false, e2)
    else
      let e3 := e2 ++ [Cmd.execPod pod rsyncProbeCmd]
      let againOk :=
        match env.probe2 with
        | some s => !strEmpty (pyStrip s)
        | none => false
      (againOk, e3)
  else (true, e1)

/-! ### World-data validation -/

/-- Environment of one `validate_world_data` call: outcomes of the script
probe, the configmap lookup, the world-name probe and the three manual
structural checks (directory, `level.dat`, region-file count), plus the
outcome of running `/scripts/validate-world.sh` when it exists.  `none`
means the respective `kubectl exec` failed. -/
structure ValidateEnv where
  checkScript : Option String
  cmOk : Bool
  cmStdout : String
  worldNameProbe : Option String
  dirCheck : Option String
  levelCheck : Option String
  regionCheck : Option String
  scriptRun : Option String

/-- World-name detection shared by `sync_world_data` and
`validate_world_data`: strip of the `level-name=` grep, defaulting to
`"world"`. -/
def worldNameOf (probe : Option String) : String :=
  match probe with
  | some s => if strEmpty (pyStrip s) then "world" else pyStrip s
  | none => "world"

/-- The `ls -la /scripts/validate-world.sh` probe command. -/
def checkValidateScriptCmd : String :=
  "ls -la /scripts/validate-world.sh 2>/dev/null || echo SCRIPT_NOT_FOUND"

/-- The validation script counts as missing when the probe exec failed or its
output contains `SCRIPT_NOT_FOUND`. -/
def validateScriptMissing (env : ValidateEnv) : Bool :=
  match env.checkScript with
  | none => true
  | some s => pyContains s "SCRIPT_NOT_FOUND"

/-- The directory existence check is reported missing when the exec failed or
printed `DIR_MISSING`. -/
def dirMissingB (env : ValidateEnv) : Bool :=
  match env.dirCheck with
  | none => true
  | some s => pyContains s "DIR_MISSING"

/-- The `level.dat` check is reported missing when the exec failed or printed
`LEVEL_MISSING`. -/
def levelMissingB (env : ValidateEnv) : Bool :=
  match env.levelCheck with
  | none => true
  | some s => pyContains s "LEVEL_MISSING"

/-- The region-file count: `int(stdout.strip())` of the `find ... | wc -l`
output, staying 0 when the exec failed, printed nothing, or printed something
unparseable. -/
def regionCountOf (env : ValidateEnv) : Int :=
  match env.regionCheck with
  | some s => if strEmpty (pyStrip s) then 0 else (pyInt? s).getD 0
  | none => 0

/-- `MinecraftUpdater.validate_world_data`.  Faithful to the source: when
`skip_validation` or `dry_run` is set it returns true at once; when the
validation script is absent it falls back to the configmap-backed manual
checks (directory, then `level.dat`, then region files), *returning
`force_restart` on each failing check*; when the configmap is also absent,
validation is skipped with result true; when the script exists its output is
matched against the success marker, again returning `force_restart` on
failure. -/
def validate_world_data (cfg : Config) (env : ValidateEnv) (pod : String)
    (world_type : String) : Bool × List Cmd :=
  if cfg.skip_validation then (true, [])
  else if cfg.dry_run then (true, [])
  else
    let e0 := [Cmd.execPod pod checkValidateScriptCmd]
    if validateScriptMissing env then
      let e1 := e0 ++ [Cmd.getConfigmap]
      if env.cmOk && pyContains env.cmStdout "validate-world.sh" then
        let wn := worldNameOf env.worldNameProbe
        let worldPath :=
          (if world_type = "active" then "/minecraft-world/"
           else "/backup-world/") ++ wn
        let e2 := e1 ++
          [Cmd.execPod pod "grep level-name= /config/server.properties",
           Cmd.execPod pod ("[ -d " ++ worldPath ++ " ] && echo DIR_EXISTS || echo DIR_MISSING")]
        if dirMissingB env then (cfg.force_restart, e2)
        else
          let e3 := e2 ++
            [Cmd.execPod pod ("[ -f " ++ worldPath ++ "/level.dat ] && echo LEVEL_EXISTS || echo LEVEL_MISSING")]
          if levelMissingB env then (cfg.force_restart, e3)
          else
            let e4 := e3 ++
              [Cmd.execPod pod ("find " ++ worldPath ++ "/region -name *.mca | wc -l")]
            if regionCountOf env > 0 then (true, e4)
            else (cfg.force_restart, e4)
      else (true, e1)
    else
      let e1 := e0 ++ [Cmd.execPod pod ("/scripts/validate-world.sh " ++ world_type)]
      match env.scriptRun with
      | none => (cfg.force_restart, e1)
      | some out =>
        if pyContains out "Validierung erfolgreich abgeschlossen" then (true, e1)
        else (cfg.force_restart, e1)

/-! ### World-data synchronisation -/

/-- Environment of one attempt of `sync_world_data`: outcomes of the
`world-sync.sh` probe, the world-name probe, the integrated (inline shell)
sync run, the `world-sync.sh` run, and the environment of the post-sync
validation call.  `none` means the respective `kubectl exec` failed. -/
structure SyncEnv where
  checkScript : Option String
  worldNameProbe : Option String
  integratedRun : Option String
  scriptRun : Option String
  validateEnv : ValidateEnv

/-- The `ls -la /scripts/world-sync.sh` probe command. -/
def checkSyncScriptCmd : String :=
  "ls -la /scripts/world-sync.sh 2>/dev/null || echo SCRIPT_NOT_FOUND"

/-- The sync script counts as missing when the probe exec failed or its
output contains `SCRIPT_NOT_FOUND`. -/
def syncScriptMissing (env : SyncEnv) : Bool :=
  match env.checkScript with
  | none => true
  | some s => pyContains s "SCRIPT_NOT_FOUND"

/-- The inline sync command of the integrated fallback (level.dat, region
files, optional dimensions; the from-backup direction additionally removes
session.lock and stale lock/tmp markers). -/
def integratedSyncCmd (d : Direction) (wn : String) : String :=
  match d with
  | Direction.toBackup =>
    "mkdir -p /backup-world/" ++ wn ++ " && tar emergency backup && cp level.dat region/*.mca DIM-1 DIM1 to /backup-world/" ++ wn
  | Direction.fromBackup =>
    "mkdir -p /minecraft-world/" ++ wn ++ " && cp level.dat region/*.mca DIM-1 DIM1 from backup && rm -f session.lock *.lock *.tmp"

/-- The `world-sync.sh` invocation. -/
def runSyncScriptCmd (d : Direction) : String :=
  match d with
  | Direction.toBackup => "/scripts/world-sync.sh to-backup"
  | Direction.fromBackup => "/scripts/world-sync.sh from-backup"

/-- The post-sync validation of `sync_world_data` (lines 584..592 of the
source): skipped under `skip_validation`; a failed validation is fatal unless
`force_restart` is set. -/
def post_sync_validate (cfg : Config) (env : SyncEnv) (pod : String)
    (d : Direction) (evs : List Cmd) : Bool × List Cmd :=
  if cfg.skip_validation then (true, evs)
  else
    let target := if d = Direction.toBackup then "backup" else "active"
    let v := validate_world_data cfg env.validateEnv pod target
    if v.1 then (true, evs ++ v.2)
    else if cfg.force_restart then (true, evs ++ v.2)
    else (false, evs ++ v.2)

/-- `MinecraftUpdater.sync_world_data`.  Dry-run simulates success.  When the
`world-sync.sh` probe misses, the integrated inline sync runs; its failure is
fatal.  When the script exists but running it fails, the source *recursively
calls `sync_world_data` again* ("Fallback zur internen Synchronisierung") —
that self-call re-probes and re-runs the script, so the retry depth is
unbounded; it is modelled by a fuel parameter (`none` = the recursion did not
return within the given fuel) over a depth-indexed environment family. -/
def sync_world_data (cfg : Config) (pod : String) (d : Direction) :
    (Nat → SyncEnv) → Nat → Option (Bool × List Cmd)
  | _, 0 => none
  | envs, fuel + 1 =>
    if cfg.dry_run then some (true, [])
    else
      let env := envs 0
      let e0 := [Cmd.execPod pod checkSyncScriptCmd]
      if syncScriptMissing env then
        let wn := worldNameOf env.worldNameProbe
        let e1 := e0 ++
          [Cmd.execPod pod "grep level-name= /config/server.properties",
           Cmd.execPod pod (integratedSyncCmd d wn)]
        match env.integratedRun with
        | none => some (false, e1)
        | some _ => some (post_sync_validate cfg env pod d e1)
      else
        let e1 := e0 ++ [Cmd.execPod pod (runSyncScriptCmd d)]
        match env.scriptRun with
        | none =>
          (sync_world_data cfg pod d (fun n => envs (n + 1)) fuel).map
            (fun r => (r.1, e1 ++ r.2))
        | some _ => some (post_sync_validate cfg env pod d e1)

/-! ### Graceful shutdown -/

/-- Environment of one `shutdown_minecraft_server` call: whether the RCON
connection was established, the stdout of the `pgrep` poll at each of the 30
iterations (`none` = the exec failed / raised), and the outcome of the
fallback `delete_pod`. -/
structure ShutdownEnv where
  rconConnect : Bool
  poll : Nat → Option String
  deleteOutcome : DeleteOutcome

/-- The poll command of the shutdown wait loop. -/
def pgrepCmd : String := "pgrep -f java server.jar || echo STOPPED"

/-- One poll iteration reports the server stopped when the exec succeeded and
its output contains `STOPPED`. -/
def pollStopped (poll : Nat → Option String) (i : Nat) : Bool :=
  match poll i with
  | some s => pyContains s "STOPPED"
  | none => false

/-- `MinecraftUpdater.shutdown_minecraft_server`: dry-run simulates success;
`force_restart` deletes the pod immediately; a failed RCON connection falls
back to deletion; otherwise the RCON stop sequence is sent and the script
polls up to 30 times for process exit, falling back to `delete_pod` when the
poll budget is exhausted. -/
def shutdown_minecraft_server (cfg : Config) (env : ShutdownEnv)
    (pod : String) : Bool × List Cmd :=
  if cfg.dry_run then (true, [])
  else if cfg.force_restart then delete_pod cfg env.deleteOutcome pod
  else if !env.rconConnect then
    let dp := delete_pod cfg env.deleteOutcome pod
    (dp.1, Cmd.rconSession :: dp.2)
  else
    let k := ((List.range 30).takeWhile
      (fun i => !(pollStopped env.poll i))).length
    let pollEvs := (List.range (min (k + 1) 30)).map
      (fun _ => Cmd.execPod pod pgrepCmd)
    if k < 30 then (true, Cmd.rconSession :: pollEvs)
    else
      let dp := delete_pod cfg env.deleteOutcome pod
      (dp.1, (Cmd.rconSession :: pollEvs) ++ dp.2)

/-! ### The orchestrator `perform_update` -/

/-- The mutable session record of `MinecraftUpdater` threaded through
`perform_update` (`current_step`, `rollback_needed`, `success`). -/
structure UState where
  current_step : Nat
  rollback_needed : Bool
  success : Bool
deriving DecidableEq, Repr

/-- Intermediate result of the phase pipeline: whether an early
`return False` has happened, the session state, and the tagged event trace. -/
structure SRes where
  aborted : Bool
  st : UState
  tr : List TEvent
deriving DecidableEq, Repr

/-- Session state at creation (`__init__`): step 0, no rollback, no success. -/
def initState : UState :=
  { current_step := 0, rollback_needed := false, success := false }

/-- Pipeline start. -/
def initSRes : SRes :=
  { aborted := false, st := initState, tr := [] }

/-- `update_progress`: the per-phase `current_step` increment. -/
def bump (st : UState) : UState :=
  { st with current_step := st.current_step + 1 }

/-- Environment of a whole `perform_update` run: one outcome per external
call site, in program order.  The three `sync_world_data` call sites get
depth-indexed environment families because of the retry recursion. -/
structure Env where
  gopConnect : Bool
  gopResp : Option String
  scale1Ok : Bool
  wait0aOk : Bool
  rsync : RsyncEnv
  validate3 : ValidateEnv
  notify4 : Bool
  helmOk : Bool
  notify6 : Bool
  saveOk : Bool
  notify7 : Bool
  sync7 : Nat → SyncEnv
  scale2Ok : Bool
  wait1Ok : Bool
  sync9 : Nat → SyncEnv
  switch1 : SwitchEnv
  notify8 : Bool
  shutdownEnv : ShutdownEnv
  wait0bOk : Bool
  sync11 : Nat → SyncEnv
  switch0 : SwitchEnv
  notify12 : Bool
  scaleDownOk : Bool

/-- Schritt 1: query the pre-update player count (informational only). -/
def step1 (cfg : Config) (env : Env) (s : SRes) : SRes :=
  if s.aborted then s
  else
    let st := bump s.st
    let g := get_online_players cfg env.gopConnect env.gopResp
    { aborted := false, st := st, tr := s.tr ++ tag st.rollback_needed g.2 }

/-- Schritt 2: ensure server 0 runs — `scale_statefulset(1)` and
`wait_for_pod_ready(pod 0)` each abort the session on failure; then the
rsync availability probe runs (its result is ignored). -/
def step2 (cfg : Config) (env : Env) (s : SRes) : SRes :=
  if s.aborted then s
  else
    let st := bump s.st
    let pod0 := get_pod_name cfg 0
    let t0 := s.tr ++ [tag1 st.rollback_needed (Event.scaleCall 1)]
    let sc := scale_statefulset cfg env.scale1Ok 1
    let t1 := t0 ++ tag st.rollback_needed sc.2
    if !sc.1 then { aborted := true, st := st, tr := t1 }
    else
      let t2 := t1 ++ [tag1 st.rollback_needed (Event.waitCall pod0)]
      let w := wait_for_pod_ready cfg env.wait0aOk pod0
      let t3 := t2 ++ tag st.rollback_needed w.2
      if !w.1 then { aborted := true, st := st, tr := t3 }
      else
        let r := check_for_rsync cfg env.rsync pod0
        { aborted := false, st := st, tr := t3 ++ tag st.rollback_needed r.2 }

/-- Schritt 3: validate the active world unless `skip_validation`; a failed
validation aborts unless `force_restart` is set. -/
def step3 (cfg : Config) (env : Env) (s : SRes) : SRes :=
  if s.aborted then s
  else
    let st := bump s.st
    if cfg.skip_validation then { aborted := false, st := st, tr := s.tr }
    else
      let v := validate_world_data cfg env.validate3 (get_pod_name cfg 0) "active"
      let t1 := s.tr ++ tag st.rollback_needed v.2
      if v.1 then { aborted := false, st := st, tr := t1 }
      else if !cfg.force_restart then { aborted := true, st := st, tr := t1 }
      else { aborted := false, st := st, tr := t1 }

/-- Schritt 4: notify players (result ignored). -/
def step4 (cfg : Config) (env : Env) (s : SRes) : SRes :=
  if s.aborted then s
  else
    let st := bump s.st
    let n := notify_players cfg env.notify4 "Server-Update wird vorbereitet"
    { aborted := false, st := st, tr := s.tr ++ tag st.rollback_needed n.2 }

/-- Schritt 5: helm upgrade — failure aborts unless `force_restart`. -/
def step5 (cfg : Config) (env : Env) (s : SRes) : SRes :=
  if s.aborted then s
  else
    let st := bump s.st
    let h := upgrade_helm_release cfg env.helmOk
    let t1 := s.tr ++ tag st.rollback_needed h.2
    if h.1 then { aborted := false, st := st, tr := t1 }
    else if !cfg.force_restart then { aborted := true, st := st, tr := t1 }
    else { aborted := false, st := st, tr := t1 }

/-- Schritt 6: notify and `save_world` (a save failure is only a warning). -/
def step6 (cfg : Config) (env : Env) (s : SRes) : SRes :=
  if s.aborted then s
  else
    let st := bump s.st
    let n := notify_players cfg env.notify6 "Weltdaten werden gespeichert"
    let sv := save_world cfg env.saveOk
    { aborted := false, st := st,
      tr := s.tr ++ tag st.rollback_needed n.2 ++ tag st.rollback_needed sv.2 }

/-- Schritt 7: sync the world of server 0 to the backup — failure aborts
unless `force_restart`. -/
def step7 (cfg : Config) (env : Env) (fuel : Nat) (s : SRes) : Option SRes :=
  if s.aborted then some s
  else
    let st := bump s.st
    let pod0 := get_pod_name cfg 0
    let n := notify_players cfg env.notify7 "Weltdaten werden synchronisiert"
    let t0 := s.tr ++ tag st.rollback_needed n.2 ++
      [tag1 st.rollback_needed (Event.syncCall pod0 Direction.toBackup)]
    match sync_world_data cfg pod0 Direction.toBackup env.sync7 fuel with
    | none => none
    | some sy =>
      let t1 := t0 ++ tag st.rollback_needed sy.2
      if sy.1 then some { aborted := false, st := st, tr := t1 }
      else if !cfg.force_restart then some { aborted := true, st := st, tr := t1 }
      else some { aborted := false, st := st, tr := t1 }

/-- The unconditional notify at the end of the Schritt-8/9 block
("Alternativer Server ist bereit"). -/
def finish8 (cfg : Config) (env : Env) (st : UState) (tr : List TEvent) :
    Option SRes :=
  let n := notify_players cfg env.notify8 "Alternativer Server ist bereit"
  some { aborted := false, st := st, tr := tr ++ tag st.rollback_needed n.2 }

/-- Schritte 8 and 9: bring up server 1.  A `scale_statefulset(2)` failure
aborts unless `force_restart`; when scaling succeeded, a not-ready server 1
merely skips the copy and routing switch; a failed copy skips the routing
switch; Schritt 9's `update_progress` happens only when server 1 became
ready. -/
def step8 (cfg : Config) (env : Env) (fuel : Nat) (s : SRes) : Option SRes :=
  if s.aborted then some s
  else
    let st := bump s.st
    let pod1 := get_pod_name cfg 1
    let t0 := s.tr ++ [tag1 st.rollback_needed (Event.scaleCall 2)]
    let sc := scale_statefulset cfg env.scale2Ok 2
    let t1 := t0 ++ tag st.rollback_needed sc.2
    if !sc.1 then
      if !cfg.force_restart then some { aborted := true, st := st, tr := t1 }
      else finish8 cfg env st t1
    else
      let t2 := t1 ++ [tag1 st.rollback_needed (Event.waitCall pod1)]
      let w := wait_for_pod_ready cfg env.wait1Ok pod1
      let t3 := t2 ++ tag st.rollback_needed w.2
      if !w.1 then finish8 cfg env st t3
      else
        let st := bump st
        let t4 := t3 ++ [tag1 st.rollback_needed (Event.syncCall pod1 Direction.fromBackup)]
        match sync_world_data cfg pod1 Direction.fromBackup env.sync9 fuel with
        | none => none
        | some sy =>
          let t5 := t4 ++ tag st.rollback_needed sy.2
          if !sy.1 then finish8 cfg env st t5
          else
            let t6 := t5 ++ [tag1 st.rollback_needed (Event.switchCall 1)]
            let b := switch_bungee_priority cfg env.switch1 1
            finish8 cfg env st (t6 ++ tag st.rollback_needed b.2)

/-- Schritt 10: shut server 0 down and wait for it again; each failure sets
`rollback_needed` and the run continues. -/
def step10 (cfg : Config) (env : Env) (s : SRes) : SRes :=
  if s.aborted then s
  else
    let st := bump s.st
    let pod0 := get_pod_name cfg 0
    let sh := shutdown_minecraft_server cfg env.shutdownEnv pod0
    let t1 := s.tr ++ tag st.rollback_needed sh.2
    let st1 := if sh.1 then st else { st with rollback_needed := true }
    let t2 := t1 ++ [tag1 st1.rollback_needed (Event.waitCall pod0)]
    let w := wait_for_pod_ready cfg env.wait0bOk pod0
    let t3 := t2 ++ tag st1.rollback_needed w.2
    let st2 := if w.1 then st1 else { st1 with rollback_needed := true }
    { aborted := false, st := st2, tr := t3 }

/-- Schritt 11: copy the backup back to server 0 (failure sets
`rollback_needed`, continues) and restore the routing priority to server 0
(failure only logged). -/
def step11 (cfg : Config) (env : Env) (fuel : Nat) (s : SRes) : Option SRes :=
  if s.aborted then some s
  else
    let st := bump s.st
    let pod0 := get_pod_name cfg 0
    let t0 := s.tr ++ [tag1 st.rollback_needed (Event.syncCall pod0 Direction.fromBackup)]
    match sync_world_data cfg pod0 Direction.fromBackup env.sync11 fuel with
    | none => none
    | some sy =>
      let t1 := t0 ++ tag st.rollback_needed sy.2
      let st1 := if sy.1 then st else { st with rollback_needed := true }
      let t2 := t1 ++ [tag1 st1.rollback_needed (Event.switchCall 0)]
      let b := switch_bungee_priority cfg env.switch0 0
      some { aborted := false, st := st1, tr := t2 ++ tag st1.rollback_needed b.2 }

/-- Schritt 12: reconcile — with `rollback_needed` set, server 1 is kept as
backup and only a failure notification goes out; otherwise success is
announced and the statefulset is scaled back to 1 replica. -/
def step12 (cfg : Config) (env : Env) (s : SRes) : SRes :=
  if s.aborted then s
  else
    let st := bump s.st
    if st.rollback_needed then
      let n := notify_players cfg env.notify12 "Update teilweise fehlgeschlagen"
      { aborted := false, st := st, tr := s.tr ++ tag st.rollback_needed n.2 }
    else
      let n := notify_players cfg env.notify12 "Update erfolgreich abgeschlossen"
      let t1 := s.tr ++ tag st.rollback_needed n.2 ++
        [tag1 st.rollback_needed (Event.scaleCall 1)]
      let sc := scale_statefulset cfg env.scaleDownOk 1
      { aborted := false, st := st, tr := t1 ++ tag st.rollback_needed sc.2 }

/-- The first six (never-`none`) phases composed. -/
def stage6 (cfg : Config) (env : Env) (s0 : SRes) : SRes :=
  step6 cfg env (step5 cfg env (step4 cfg env
    (step3 cfg env (step2 cfg env (step1 cfg env s0)))))

/-- The phase pipeline of `perform_update` from an arbitrary start state
(`none` = a `sync_world_data` retry recursion did not return within the given
fuel). -/
def run_phases (cfg : Config) (env : Env) (fuel : Nat) (s0 : SRes) :
    Option SRes :=
  (step7 cfg env fuel (stage6 cfg env s0)).bind fun s7 =>
    (step8 cfg env fuel s7).bind fun s8 =>
      (step11 cfg env fuel (step10 cfg env s8)).map fun s11 =>
        step12 cfg env s11

/-- The tail of `perform_update` (lines 1130..1138 of the source): an aborted
run has already returned `False`; a completed run returns `False` when
`rollback_needed` is set and otherwise sets `success` and returns `True`. -/
def finalize (s : SRes) : Bool × SRes :=
  if s.aborted then (false, s)
  else if s.st.rollback_needed then (false, s)
  else (true, { s with st := { s.st with success := true } })

/-- `MinecraftUpdater.perform_update`: the phase pipeline from the fresh
session state followed by the final result computation. -/
def perform_update (cfg : Config) (env : Env) (fuel : Nat) :
    Option (Bool × SRes) :=
  (run_phases cfg env fuel initSRes).map finalize

/-- The final boolean result of a run. -/
def resultOf (o : Option (Bool × SRes)) : Option Bool :=
  o.map (fun p => p.1)

/-- The final `rollback_needed` flag of a run. -/
def rollbackOf (o : Option (Bool × SRes)) : Option Bool :=
  o.map (fun p => p.2.st.rollback_needed)

/-- Whether the run ended in an early abort. -/
def abortedOf (o : Option (Bool × SRes)) : Option Bool :=
  o.map (fun p => p.2.aborted)

/-- The final `current_step` counter of a run. -/
def stepOf (o : Option (Bool × SRes)) : Option Nat :=
  o.map (fun p => p.2.st.current_step)

/-- The tagged event trace of a run (empty when the run did not return). -/
def traceOf (o : Option (Bool × SRes)) : List TEvent :=
  match o with
  | none => []
  | some p => p.2.tr

/-! ### Concrete sessions used as witnesses and counterexamples -/

/-- Default flag set of the script (`minecraft-server`, `bungee`, an RCON
password given, no dry-run, no force, no skip). -/
def cfgW : Config :=
  { minecraft_release := "minecraft-server", bungee_release := "bungee",
    rcon_password := "pw", dry_run := false, force_restart := false,
    skip_validation := false }

/-- A validation environment in which the validation script and the configmap
are both absent, so `validate_world_data` skips with result true. -/
def validateEnvSkip : ValidateEnv :=
  { checkScript := some "SCRIPT_NOT_FOUND", cmOk := false, cmStdout := "",
    worldNameProbe := none, dirCheck := none, levelCheck := none,
    regionCheck := none, scriptRun := none }

/-- A sync environment in which `world-sync.sh` exists and runs fine, and the
post-sync validation skips (no validation script/configmap). -/
def syncEnvOk : SyncEnv :=
  { checkScript := some "world-sync.sh", worldNameProbe := some "world",
    integratedRun := some "ok", scriptRun := some "ok",
    validateEnv := validateEnvSkip }

/-- A shutdown environment in which the first poll already reports the server
stopped. -/
def shutdownEnvOk : ShutdownEnv :=
  { rconConnect := true, poll := fun _ => some "STOPPED",
    deleteOutcome := DeleteOutcome.ok }

/-- Scenario B environment: every external call succeeds. -/
def envW : Env :=
  { gopConnect := true,
    gopResp := some "There are 3 of a maximum of 20 players online: a, b, c",
    scale1Ok := true, wait0aOk := true,
    rsync := { probe := some "/usr/bin/rsync", install := none, probe2 := none },
    validate3 := validateEnvSkip,
    notify4 := true, helmOk := true, notify6 := true, saveOk := true,
    notify7 := true, sync7 := fun _ => syncEnvOk,
    scale2Ok := true, wait1Ok := true, sync9 := fun _ => syncEnvOk,
    switch1 := { nameProbe := some "bungee-0", scriptOk := true },
    notify8 := true, shutdownEnv := shutdownEnvOk, wait0bOk := true,
    sync11 := fun _ => syncEnvOk,
    switch0 := { nameProbe := some "bungee-0", scriptOk := true },
    notify12 := true, scaleDownOk := true }

/-- Environment differing from Scenario B only in that the phase-2
`kubectl scale` fails. -/
def envScale1Fail : Env := { envW with scale1Ok := false }

/-- Environment differing from Scenario B only in that the phase-8
`kubectl scale` to 2 replicas fails. -/
def envScale2Fail : Env := { envW with scale2Ok := false }

/-- Scenario C environment: the shutdown poll never observes process exit
(every `pgrep` keeps reporting a pid), and the fallback deletion succeeds. -/
def envPollExhausted : Env :=
  { envW with shutdownEnv :=
    { rconConnect := true, poll := fun _ => some "4711",
      deleteOutcome := DeleteOutcome.ok } }

/-- Dry-run variant of the default flag set. -/
def cfgDry : Config := { cfgW with dry_run := true }

/-- Force-restart variant of the default flag set. -/
def cfgForce : Config := { cfgW with force_restart := true }

/-- Adversarial sync environment: at every retry depth the probe finds
`/scripts/world-sync.sh` and running it fails. -/
def advSyncEnv : SyncEnv :=
  { checkScript := some "-rwxr-xr-x 1 root root 2048 /scripts/world-sync.sh",
    worldNameProbe := none, integratedRun := none, scriptRun := none,
    validateEnv := validateEnvSkip }

/-- Validation environment whose manual (configmap-backed) path finds the
world directory missing. -/
def validateEnvDirMissing : ValidateEnv :=
  { checkScript := some "SCRIPT_NOT_FOUND", cmOk := true,
    cmStdout := "validate-world.sh data", worldNameProbe := some "world",
    dirCheck := some "DIR_MISSING", levelCheck := none, regionCheck := none,
    scriptRun := none }

/-! ### Structural lemmas about the phase functions -/

lemma mem_tag {te : TEvent} {rb : Bool} {cs : List Cmd} (h : te ∈ tag rb cs) :
    ∃ c, te = { rb := rb, ev := Event.cmd c } := by
  simp only [tag, List.mem_map] at h
  obtain ⟨c, _, rfl⟩ := h
  exact ⟨c, rfl⟩

lemma step1_skip (cfg : Config) (env : Env) {s : SRes} (h : s.aborted = true) :
    step1 cfg env s = s := by
  simp [step1, h]

lemma step2_skip (cfg : Config) (env : Env) {s : SRes} (h : s.aborted = true) :
    step2 cfg env s = s := by
  simp [step2, h]

lemma step3_skip (cfg : Config) (env : Env) {s : SRes} (h : s.aborted = true) :
    step3 cfg env s = s := by
  simp [step3, h]

lemma step4_skip (cfg : Config) (env : Env) {s : SRes} (h : s.aborted = true) :
    step4 cfg env s = s := by
  simp [step4, h]

lemma step5_skip (cfg : Config) (env : Env) {s : SRes} (h : s.aborted = true) :
    step5 cfg env s = s := by
  simp [step5, h]

lemma step6_skip (cfg : Config) (env : Env) {s : SRes} (h : s.aborted = true) :
    step6 cfg env s = s := by
  simp [step6, h]

lemma step7_skip (cfg : Config) (env : Env) (fuel : Nat) {s : SRes}
    (h : s.aborted = true) : step7 cfg env fuel s = some s := by
  simp [step7, h]

lemma step8_skip (cfg : Config) (env : Env) (fuel : Nat) {s : SRes}
    (h : s.aborted = true) : step8 cfg env fuel s = some s := by
  simp [step8, h]

lemma step10_skip (cfg : Config) (env : Env) {s : SRes} (h : s.aborted = true) :
    step10 cfg env s = s := by
  simp [step10, h]

lemma step11_skip (cfg : Config) (env : Env) (fuel : Nat) {s : SRes}
    (h : s.aborted = true) : step11 cfg env fuel s = some s := by
  simp [step11, h]

lemma step12_skip (cfg : Config) (env : Env) {s : SRes} (h : s.aborted = true) :
    step12 cfg env s = s := by
  simp [step12, h]

lemma step1_rb (cfg : Config) (env : Env) (s : SRes) :
    (step1 cfg env s).st.rollback_needed = s.st.rollback_needed := by
  unfold step1; dsimp only; split_ifs <;> rfl

lemma step2_rb (cfg : Config) (env : Env) (s : SRes) :
    (step2 cfg env s).st.rollback_needed = s.st.rollback_needed := by
  unfold step2; dsimp only; split_ifs <;> rfl

lemma step3_rb (cfg : Config) (env : Env) (s : SRes) :
    (step3 cfg env s).st.rollback_needed = s.st.rollback_needed := by
  unfold step3; dsimp only; split_ifs <;> rfl

lemma step4_rb (cfg : Config) (env : Env) (s : SRes) :
    (step4 cfg env s).st.rollback_needed = s.st.rollback_needed := by
  unfold step4; dsimp only; split_ifs <;> rfl

lemma step5_rb (cfg : Config) (env : Env) (s : SRes) :
    (step5 cfg env s).st.rollback_needed = s.st.rollback_needed := by
  unfold step5; dsimp only; split_ifs <;> rfl

lemma step6_rb (cfg : Config) (env : Env) (s : SRes) :
    (step6 cfg env s).st.rollback_needed = s.st.rollback_needed := by
  unfold step6; dsimp only; split_ifs <;> rfl

lemma step12_rb (cfg : Config) (env : Env) (s : SRes) :
    (step12 cfg env s).st.rollback_needed = s.st.rollback_needed := by
  unfold step12; dsimp only; split_ifs <;> rfl

lemma stage6_rb (cfg : Config) (env : Env) (s0 : SRes) :
    (stage6 cfg env s0).st.rollback_needed = s0.st.rollback_needed := by
  unfold stage6
  rw [step6_rb, step5_rb, step4_rb, step3_rb, step2_rb, step1_rb]

lemma step7_rb (cfg : Config) (env : Env) (fuel : Nat) (s : SRes) :
    ∀ r, step7 cfg env fuel s = some r →
      r.st.rollback_needed = s.st.rollback_needed := by
  intro r h
  cases hab : s.aborted
  · simp only [step7, hab, Bool.false_eq_true, if_false] at h
    split at h
    · exact absurd h (by simp)
    · split_ifs at h <;> (injection h with h; subst h; rfl)
  · rw [step7_skip cfg env fuel hab] at h
    injection h with h; subst h; rfl

lemma step8_rb (cfg : Config) (env : Env) (fuel : Nat) (s : SRes) :
    ∀ r, step8 cfg env fuel s = some r →
      r.st.rollback_needed = s.st.rollback_needed := by
  intro r h
  cases hab : s.aborted
  · simp only [step8, finish8, hab, Bool.false_eq_true, if_false] at h
    split_ifs at h <;>
      first
        | (injection h with h; subst h; rfl)
        | (split at h
           · exact absurd h (by simp)
           · split_ifs at h <;> (injection h with h; subst h; rfl))
  · rw [step8_skip cfg env fuel hab] at h
    injection h with h; subst h; rfl

lemma step10_ab (cfg : Config) (env : Env) (s : SRes) :
    (step10 cfg env s).aborted = s.aborted := by
  cases hab : s.aborted <;> simp [step10, hab]

lemma step11_ab (cfg : Config) (env : Env) (fuel : Nat) (s : SRes) :
    ∀ r, step11 cfg env fuel s = some r → r.aborted = s.aborted := by
  intro r h
  cases hab : s.aborted
  · rw [step11] at h
    rw [hab] at h
    simp only [Bool.false_eq_true, if_false] at h
    split at h
    · exact absurd h (by simp)
    · injection h with h; subst h; simp [hab]
  · rw [step11_skip cfg env fuel hab] at h
    injection h with h; subst h; exact hab

lemma step12_ab (cfg : Config) (env : Env) (s : SRes) :
    (step12 cfg env s).aborted = s.aborted := by
  cases hab : s.aborted
  · unfold step12
    simp only [hab, Bool.false_eq_true, if_false]
    split_ifs <;> rfl
  · simp [step12, hab]

lemma step1_ab (cfg : Config) (env : Env) (s : SRes) :
    (step1 cfg env s).aborted = s.aborted := by
  cases hab : s.aborted <;> simp [step1, hab]

lemma step1_cs (cfg : Config) (env : Env) {s : SRes} (h : s.aborted = false) :
    (step1 cfg env s).st.current_step = s.st.current_step + 1 := by
  simp [step1, h, bump]

lemma step10_rb_mono (cfg : Config) (env : Env) {s : SRes}
    (h : s.st.rollback_needed = true) :
    (step10 cfg env s).st.rollback_needed = true := by
  cases hab : s.aborted
  · unfold step10
    simp only [hab, Bool.false_eq_true, if_false]
    split_ifs <;> simp [bump, h]
  · rw [step10_skip cfg env hab]; exact h

lemma step11_rb_mono (cfg : Config) (env : Env) (fuel : Nat) {s : SRes}
    (h : s.st.rollback_needed = true) :
    ∀ r, step11 cfg env fuel s = some r → r.st.rollback_needed = true := by
  intro r hr
  cases hab : s.aborted
  · simp only [step11, hab, Bool.false_eq_true, if_false] at hr
    split at hr
    · exact absurd hr (by simp)
    · split_ifs at hr <;> (injection hr with hr; subst hr; simp [bump, h])
  · rw [step11_skip cfg env fuel hab] at hr
    injection hr with hr; subst hr; exact h

lemma step2_abort (cfg : Config) (env : Env) {s : SRes} (h : s.aborted = false)
    (hf : (scale_statefulset cfg env.scale1Ok 1).1 = false ∨
          ((scale_statefulset cfg env.scale1Ok 1).1 = true ∧
           (wait_for_pod_ready cfg env.wait0aOk (get_pod_name cfg 0)).1 = false)) :
    (step2 cfg env s).aborted = true ∧
    (step2 cfg env s).st.current_step = s.st.current_step + 1 := by
  constructor <;>
    (unfold step2
     simp only [h, Bool.false_eq_true, if_false]
     rcases hf with hf | ⟨hf1, hf2⟩
     · simp [hf, bump]
     · simp [hf1, hf2, bump])

lemma stage6_skip (cfg : Config) (env : Env) {s : SRes} (h : s.aborted = true) :
    stage6 cfg env s = s := by
  unfold stage6
  rw [step1_skip cfg env h, step2_skip cfg env h, step3_skip cfg env h,
    step4_skip cfg env h, step5_skip cfg env h, step6_skip cfg env h]

lemma run_phases_decomp (cfg : Config) (env : Env) (fuel : Nat) (s0 : SRes) :
    ∀ s, run_phases cfg env fuel s0 = some s →
      ∃ s7 s8 s11, step7 cfg env fuel (stage6 cfg env s0) = some s7 ∧
        step8 cfg env fuel s7 = some s8 ∧
        step11 cfg env fuel (step10 cfg env s8) = some s11 ∧
        s = step12 cfg env s11 := by
  intro s h
  unfold run_phases at h
  cases h7 : step7 cfg env fuel (stage6 cfg env s0) with
  | none => rw [h7] at h; simp at h
  | some s7 =>
    rw [h7] at h
    simp only [Option.some_bind] at h
    cases h8 : step8 cfg env fuel s7 with
    | none => rw [h8] at h; simp at h
    | some s8 =>
      rw [h8] at h
      simp only [Option.some_bind] at h
      cases h11 : step11 cfg env fuel (step10 cfg env s8) with
      | none => rw [h11] at h; simp at h
      | some s11 =>
        rw [h11] at h
        simp only [Option.map_some'] at h
        injection h with h
        exact ⟨s7, s8, s11, rfl, h8, h11, h.symm⟩

lemma run_phases_abort_rb (cfg : Config) (env : Env) (fuel : Nat) :
    ∀ s, run_phases cfg env fuel initSRes = some s →
      s.aborted = true → s.st.rollback_needed = false := by
  intro s h habs
  obtain ⟨s7, s8, s11, h7, h8, h11, rfl⟩ :=
    run_phases_decomp cfg env fuel initSRes s h
  have h6rb : (stage6 cfg env initSRes).st.rollback_needed = false := by
    rw [stage6_rb]; rfl
  cases h6ab : (stage6 cfg env initSRes).aborted with
  | true =>
    rw [step7_skip cfg env fuel h6ab] at h7
    injection h7 with h7
    rw [← h7] at h8
    rw [step8_skip cfg env fuel h6ab] at h8
    injection h8 with h8
    rw [← h8] at h11
    rw [step10_skip cfg env h6ab, step11_skip cfg env fuel h6ab] at h11
    injection h11 with h11
    rw [← h11, step12_skip cfg env h6ab]
    exact h6rb
  | false =>
    have h7rb : s7.st.rollback_needed = false := by
      rw [step7_rb cfg env fuel _ _ h7]; exact h6rb
    cases h7ab : s7.aborted with
    | true =>
      rw [step8_skip cfg env fuel h7ab] at h8
      injection h8 with h8
      rw [← h8] at h11
      rw [step10_skip cfg env h7ab, step11_skip cfg env fuel h7ab] at h11
      injection h11 with h11
      rw [← h11, step12_skip cfg env h7ab]
      exact h7rb
    | false =>
      have h8rb : s8.st.rollback_needed = false := by
        rw [step8_rb cfg env fuel _ _ h8]; exact h7rb
      cases h8ab : s8.aborted with
      | true =>
        rw [step10_skip cfg env h8ab, step11_skip cfg env fuel h8ab] at h11
        injection h11 with h11
        rw [← h11, step12_skip cfg env h8ab]
        exact h8rb
      | false =>
        have hA : (step12 cfg env s11).aborted = false := by
          rw [step12_ab, step11_ab cfg env fuel _ _ h11, step10_ab]
          exact h8ab
        rw [hA] at habs
        exact absurd habs (by simp)

lemma finalize_tr (s : SRes) : (finalize s).2.tr = s.tr := by
  unfold finalize; split_ifs <;> rfl

lemma finalize_rb (s : SRes) :
    (finalize s).2.st.rollback_needed = s.st.rollback_needed := by
  unfold finalize; split_ifs <;> rfl

lemma finalize_ab (s : SRes) : (finalize s).2.aborted = s.aborted := by
  unfold finalize; split_ifs <;> rfl

lemma finalize_cs (s : SRes) :
    (finalize s).2.st.current_step = s.st.current_step := by
  unfold finalize; split_ifs <;> rfl

lemma finalize_fst (s : SRes) :
    (finalize s).1 = (!s.aborted && !s.st.rollback_needed) := by
  unfold finalize
  split_ifs with h1 h2 <;> simp [h1] <;> simp [h2]

/-- The property behind claim C2: a `scaleTo(1)` invocation may only be
tagged with `rollback_needed = false`. -/
def scaleOneGuard (te : TEvent) : Prop :=
  te.ev = Event.scaleCall 1 → te.rb = false

lemma forall_mem_tag {P : TEvent → Prop} {rb : Bool} {cs : List Cmd} :
    (∀ te ∈ tag rb cs, P te) ↔
      ∀ c ∈ cs, P { rb := rb, ev := Event.cmd c } := by
  simp [tag]

lemma step1_guard (cfg : Config) (env : Env) (s : SRes)
    (hQ : ∀ te ∈ s.tr, scaleOneGuard te) :
    ∀ te ∈ (step1 cfg env s).tr, scaleOneGuard te := by
  cases hab : s.aborted
  · unfold step1
    simp only [hab, Bool.false_eq_true, if_false]
    simp only [List.forall_mem_append, forall_mem_tag]
    exact ⟨hQ, by simp [scaleOneGuard]⟩
  · rw [step1_skip cfg env hab]; exact hQ

lemma step2_guard (cfg : Config) (env : Env) (s : SRes)
    (hQ : ∀ te ∈ s.tr, scaleOneGuard te)
    (hrb : s.st.rollback_needed = false) :
    ∀ te ∈ (step2 cfg env s).tr, scaleOneGuard te := by
  cases hab : s.aborted
  · unfold step2
    simp only [hab, Bool.false_eq_true, if_false]
    split_ifs <;>
      (simp only [List.forall_mem_append, forall_mem_tag,
        List.forall_mem_singleton, tag1]
       repeat' apply And.intro
       all_goals first
         | exact hQ
         | simp [scaleOneGuard, bump, hrb])
  · rw [step2_skip cfg env hab]; exact hQ

lemma step3_guard (cfg : Config) (env : Env) (s : SRes)
    (hQ : ∀ te ∈ s.tr, scaleOneGuard te) :
    ∀ te ∈ (step3 cfg env s).tr, scaleOneGuard te := by
  cases hab : s.aborted
  · unfold step3
    simp only [hab, Bool.false_eq_true, if_false]
    split_ifs <;>
      (simp only [List.forall_mem_append, forall_mem_tag,
        List.forall_mem_singleton, tag1]
       repeat' apply And.intro
       all_goals first
         | exact hQ
         | simp [scaleOneGuard])
  · rw [step3_skip cfg env hab]; exact hQ

lemma step4_guard (cfg : Config) (env : Env) (s : SRes)
    (hQ : ∀ te ∈ s.tr, scaleOneGuard te) :
    ∀ te ∈ (step4 cfg env s).tr, scaleOneGuard te := by
  cases hab : s.aborted
  · unfold step4
    simp only [hab, Bool.false_eq_true, if_false]
    simp only [List.forall_mem_append, forall_mem_tag]
    exact ⟨hQ, by simp [scaleOneGuard]⟩
  · rw [step4_skip cfg env hab]; exact hQ

lemma step5_guard (cfg : Config) (env : Env) (s : SRes)
    (hQ : ∀ te ∈ s.tr, scaleOneGuard te) :
    ∀ te ∈ (step5 cfg env s).tr, scaleOneGuard te := by
  cases hab : s.aborted
  · unfold step5
    simp only [hab, Bool.false_eq_true, if_false]
    split_ifs <;>
      (simp only [List.forall_mem_append, forall_mem_tag,
        List.forall_mem_singleton, tag1]
       repeat' apply And.intro
       all_goals first
         | exact hQ
         | simp [scaleOneGuard])
  · rw [step5_skip cfg env hab]; exact hQ

lemma step6_guard (cfg : Config) (env : Env) (s : SRes)
    (hQ : ∀ te ∈ s.tr, scaleOneGuard te) :
    ∀ te ∈ (step6 cfg env s).tr, scaleOneGuard te := by
  cases hab : s.aborted
  · unfold step6
    simp only [hab, Bool.false_eq_true, if_false]
    simp only [List.forall_mem_append, forall_mem_tag]
    repeat' apply And.intro
    all_goals first
      | exact hQ
      | simp [scaleOneGuard]
  · rw [step6_skip cfg env hab]; exact hQ

lemma step7_guard (cfg : Config) (env : Env) (fuel : Nat) (s : SRes)
    (hQ : ∀ te ∈ s.tr, scaleOneGuard te) :
    ∀ r, step7 cfg env fuel s = some r →
      ∀ te ∈ r.tr, scaleOneGuard te := by
  intro r h
  cases hab : s.aborted
  · simp only [step7, hab, Bool.false_eq_true, if_false] at h
    split at h
    · exact absurd h (by simp)
    · split_ifs at h <;>
        (injection h with h; subst h
         dsimp only
         simp only [List.forall_mem_append, forall_mem_tag,
           List.forall_mem_singleton, tag1]
         repeat' apply And.intro
         all_goals first
           | exact hQ
           | simp [scaleOneGuard])
  · rw [step7_skip cfg env fuel hab] at h
    injection h with h; subst h; exact hQ

lemma step8_guard (cfg : Config) (env : Env) (fuel : Nat) (s : SRes)
    (hQ : ∀ te ∈ s.tr, scaleOneGuard te) :
    ∀ r, step8 cfg env fuel s = some r →
      ∀ te ∈ r.tr, scaleOneGuard te := by
  intro r h
  cases hab : s.aborted
  · simp only [step8, finish8, hab, Bool.false_eq_true, if_false] at h
    split_ifs at h <;>
      first
        | (injection h with h; subst h
           dsimp only
           simp only [List.forall_mem_append, forall_mem_tag,
             List.forall_mem_singleton, tag1]
           repeat' apply And.intro
           all_goals first
             | exact hQ
             | simp [scaleOneGuard])
        | (split at h
           · exact absurd h (by simp)
           · split_ifs at h <;>
               (injection h with h; subst h
                dsimp only
                simp only [List.forall_mem_append, forall_mem_tag,
                  List.forall_mem_singleton, tag1]
                repeat' apply And.intro
                all_goals first
                  | exact hQ
                  | simp [scaleOneGuard]))
  · rw [step8_skip cfg env fuel hab] at h
    injection h with h; subst h; exact hQ

lemma step10_guard (cfg : Config) (env : Env) (s : SRes)
    (hQ : ∀ te ∈ s.tr, scaleOneGuard te) :
    ∀ te ∈ (step10 cfg env s).tr, scaleOneGuard te := by
  cases hab : s.aborted
  · unfold step10
    simp only [hab, Bool.false_eq_true, if_false]
    split_ifs <;>
      (simp only [List.forall_mem_append, forall_mem_tag,
        List.forall_mem_singleton, tag1]
       repeat' apply And.intro
       all_goals first
         | exact hQ
         | simp [scaleOneGuard])
  · rw [step10_skip cfg env hab]; exact hQ

lemma step11_guard (cfg : Config) (env : Env) (fuel : Nat) (s : SRes)
    (hQ : ∀ te ∈ s.tr, scaleOneGuard te) :
    ∀ r, step11 cfg env fuel s = some r →
      ∀ te ∈ r.tr, scaleOneGuard te := by
  intro r h
  cases hab : s.aborted
  · simp only [step11, hab, Bool.false_eq_true, if_false] at h
    split at h
    · exact absurd h (by simp)
    · split_ifs at h <;>
        (injection h with h; subst h
         dsimp only
         simp only [List.forall_mem_append, forall_mem_tag,
           List.forall_mem_singleton, tag1]
         repeat' apply And.intro
         all_goals first
           | exact hQ
           | simp [scaleOneGuard])
  · rw [step11_skip cfg env fuel hab] at h
    injection h with h; subst h; exact hQ

lemma step12_guard (cfg : Config) (env : Env) (s : SRes)
    (hQ : ∀ te ∈ s.tr, scaleOneGuard te) :
    ∀ te ∈ (step12 cfg env s).tr, scaleOneGuard te := by
  cases hab : s.aborted
  · unfold step12
    simp only [hab, Bool.false_eq_true, if_false]
    split_ifs with hrb <;>
      (simp only [List.forall_mem_append, forall_mem_tag,
        List.forall_mem_singleton, tag1]
       repeat' apply And.intro
       all_goals first
         | exact hQ
         | (simp [scaleOneGuard]; done)
         | (intro h2; simpa using hrb))
  · rw [step12_skip cfg env hab]; exact hQ

lemma forall_mem_append_left {l Δ : List TEvent} {P : TEvent → Prop}
    (h : ∀ te ∈ Δ, P te) : ∀ te ∈ l ++ Δ, te ∈ l ∨ P te := by
  intro te hte
  rcases List.mem_append.mp hte with h' | h'
  · exact Or.inl h'
  · exact Or.inr (h te h')

/-! ### Claim theorems -/

/-- Claim C1, counterexample: in a session whose phase-2 `scaleTo(1)` fails
(default flags, no dry-run), `perform_update` returns `false` while
`rollback_needed` is still `false` — so the final result does *not* equal the
negation of `rollbackNeeded` on a run that aborts before phase 12. -/
theorem c1_counterexample :
    (perform_update cfgW envScale1Fail 1).map
      (fun p => (p.1, p.2.st.rollback_needed)) = some (false, false) := by
  decide

/-- Claim C1 (amended): the final boolean result of `perform_update` equals
the negation of `rollback_needed` on every run that completes the twelve
phases; a run that aborts early instead returns `false` with
`rollback_needed` still `false`. -/
theorem c1_final_result (cfg : Config) (env : Env) (fuel : Nat) :
    (abortedOf (perform_update cfg env fuel) = some false →
      resultOf (perform_update cfg env fuel) =
        (rollbackOf (perform_update cfg env fuel)).map (fun b => !b)) ∧
    (abortedOf (perform_update cfg env fuel) = some true →
      resultOf (perform_update cfg env fuel) = some false ∧
      rollbackOf (perform_update cfg env fuel) = some false) := by
  cases h : run_phases cfg env fuel initSRes with
  | none =>
    constructor <;>
      (intro hab
       rw [abortedOf, perform_update, h] at hab
       simp at hab)
  | some sf =>
    have hpu : perform_update cfg env fuel = some (finalize sf) := by
      rw [perform_update, h]; rfl
    constructor
    · intro hab
      simp only [abortedOf, hpu, Option.map_some', finalize_ab,
        Option.some.injEq] at hab
      simp only [resultOf, rollbackOf, hpu, Option.map_some', finalize_fst,
        finalize_rb, hab]
      simp
    · intro hab
      simp only [abortedOf, hpu, Option.map_some', finalize_ab,
        Option.some.injEq] at hab
      have hrb : sf.st.rollback_needed = false :=
        run_phases_abort_rb cfg env fuel sf h hab
      simp only [resultOf, rollbackOf, hpu, Option.map_some', finalize_fst,
        finalize_rb, hab, hrb]
      simp

/-- Claim C1, witness: on the all-successful Scenario-B session the completed
run satisfies the amended equation. -/
theorem c1_final_result_witness :
    resultOf (perform_update cfgW envW 3) =
      (rollbackOf (perform_update cfgW envW 3)).map (fun b => !b) :=
  (c1_final_result cfgW envW 3).1 (by decide)

/-- Claim C2: in every session, every `scaleTo(1)` invocation (phase 2 and
the phase-12 scale-down) happens while `rollback_needed` is `false`: once the
rollback latch is set, slot 1 is never scaled down, and the final-phase
`scaleTo(1)` call is issued only when `rollback_needed` is false at phase 12. -/
theorem c2_no_scale_down_after_rollback (cfg : Config) (env : Env)
    (fuel : Nat) :
    ∀ te ∈ traceOf (perform_update cfg env fuel),
      te.ev = Event.scaleCall 1 → te.rb = false := by
  intro te hte
  cases h : run_phases cfg env fuel initSRes with
  | none =>
    rw [perform_update, h] at hte
    simp [traceOf] at hte
  | some sf =>
    have hput : traceOf (perform_update cfg env fuel) = sf.tr := by
      rw [perform_update, h]
      simp [traceOf, finalize_tr]
    rw [hput] at hte
    have h12 : ∀ t ∈ sf.tr, scaleOneGuard t := by
      obtain ⟨s7, s8, s11, h7, h8, h11, rfl⟩ :=
        run_phases_decomp cfg env fuel initSRes sf h
      have g0 : ∀ t ∈ initSRes.tr, scaleOneGuard t := by
        intro t ht; simp [initSRes] at ht
      have hrb1 : (step1 cfg env initSRes).st.rollback_needed = false := by
        rw [step1_rb]; rfl
      have g6 : ∀ t ∈ (stage6 cfg env initSRes).tr, scaleOneGuard t := by
        unfold stage6
        exact step6_guard _ _ _ (step5_guard _ _ _ (step4_guard _ _ _
          (step3_guard _ _ _ (step2_guard _ _ _
            (step1_guard _ _ _ g0) hrb1))))
      have g7 := step7_guard cfg env fuel _ g6 s7 h7
      have g8 := step8_guard cfg env fuel _ g7 s8 h8
      have g10 := step10_guard cfg env _ g8
      have g11 := step11_guard cfg env fuel _ g10 s11 h11
      exact step12_guard cfg env _ g11
    exact h12 te hte

/-- Claim C2, witness: the phase-2 `scaleTo(1)` invocation of the Scenario-B
session, extracted through the theorem. -/
theorem c2_no_scale_down_after_rollback_witness :
    (⟨false, Event.scaleCall 1⟩ : TEvent).rb = false :=
  c2_no_scale_down_after_rollback cfgW envW 3
    ⟨false, Event.scaleCall 1⟩ (by decide) rfl

/-- Claim C3: `rollback_needed` is a monotonic latch — it is `false` in the
freshly created session state, and every phase function of the pipeline maps
a state with `rollback_needed = true` to a state with
`rollback_needed = true` (no phase ever resets it). -/
theorem c3_rollback_latch :
    initState.rollback_needed = false ∧
    ∀ cfg env fuel s, s.st.rollback_needed = true →
      (step1 cfg env s).st.rollback_needed = true ∧
      (step2 cfg env s).st.rollback_needed = true ∧
      (step3 cfg env s).st.rollback_needed = true ∧
      (step4 cfg env s).st.rollback_needed = true ∧
      (step5 cfg env s).st.rollback_needed = true ∧
      (step6 cfg env s).st.rollback_needed = true ∧
      (∀ r, step7 cfg env fuel s = some r → r.st.rollback_needed = true) ∧
      (∀ r, step8 cfg env fuel s = some r → r.st.rollback_needed = true) ∧
      (step10 cfg env s).st.rollback_needed = true ∧
      (∀ r, step11 cfg env fuel s = some r → r.st.rollback_needed = true) ∧
      (step12 cfg env s).st.rollback_needed = true := by
  refine ⟨rfl, ?_⟩
  intro cfg env fuel s h
  refine ⟨?_, ?_, ?_, ?_, ?_, ?_, ?_, ?_, ?_, ?_, ?_⟩
  · rw [step1_rb]; exact h
  · rw [step2_rb]; exact h
  · rw [step3_rb]; exact h
  · rw [step4_rb]; exact h
  · rw [step5_rb]; exact h
  · rw [step6_rb]; exact h
  · intro r hr; rw [step7_rb cfg env fuel s r hr]; exact h
  · intro r hr; rw [step8_rb cfg env fuel s r hr]; exact h
  · exact step10_rb_mono cfg env h
  · exact step11_rb_mono cfg env fuel h
  · rw [step12_rb]; exact h

/-- A session state with the rollback latch already set (as after a phase-10
failure). -/
def sRB : SRes :=
  { aborted := false,
    st := { current_step := 9, rollback_needed := true, success := false },
    tr := [] }

/-- Claim C3, witness: phase 1 applied to a latched state keeps the latch. -/
theorem c3_rollback_latch_witness :
    (step1 cfgW envW sRB).st.rollback_needed = true :=
  (c3_rollback_latch.2 cfgW envW 1 sRB rfl).1

/-- Claim C4: even with `dry_run = true` the session issues a real
`kubectl exec` into pod 0 (the rsync availability probe of
`check_for_rsync`, which has no dry-run guard), so a real-effect external
command is reached during a dry run. -/
theorem c4_dry_run_issues_real_exec :
    cfgDry.dry_run = true ∧
    (⟨false, Event.cmd (Cmd.execPod (get_pod_name cfgDry 0) rsyncProbeCmd)⟩ :
        TEvent) ∈ traceOf (perform_update cfgDry envW 3) := by
  decide

/-- Claim C5, counterexample: in a session where the phase-9 graceful-stop
poll is exhausted (all 30 `pgrep` probes keep reporting a pid) and the
fallback deletion succeeds, the shutdown phase returns `true`, but contrary
to the claim `rollback_needed` stays `false` and the session result is
`true`. -/
theorem c5_counterexample :
    (perform_update cfgW envPollExhausted 3).map
      (fun p => (p.1, p.2.st.rollback_needed)) = some (true, false) ∧
    ((List.range 30).all
      fun i => !(pollStopped envPollExhausted.shutdownEnv.poll i)) = true ∧
    (shutdown_minecraft_server cfgW envPollExhausted.shutdownEnv
      (get_pod_name cfgW 0)).1 = true := by
  decide

/-- Claim C5 (amended): when the graceful stop's 30-iteration poll is
exhausted, the orchestrator falls back to forced deletion and the shutdown
phase returns the deletion's result; `rollback_needed` is set by phase 10
exactly when the shutdown (or the subsequent readiness wait) reports failure
— a successful forced deletion leaves the latch unchanged. -/
theorem c5_graceful_timeout_policy :
    (∀ cfg env pod, cfg.dry_run = false → cfg.force_restart = false →
      env.rconConnect = true →
      ((List.range 30).all fun i => !(pollStopped env.poll i)) = true →
      (shutdown_minecraft_server cfg env pod).1 =
        (delete_pod cfg env.deleteOutcome pod).1) ∧
    (∀ cfg env s, s.aborted = false →
      (step10 cfg env s).st.rollback_needed =
        (s.st.rollback_needed ||
         !(shutdown_minecraft_server cfg env.shutdownEnv
             (get_pod_name cfg 0)).1 ||
         !(wait_for_pod_ready cfg env.wait0bOk (get_pod_name cfg 0)).1)) := by
  constructor
  · intro cfg env pod hdry hforce hrcon hall
    unfold shutdown_minecraft_server
    simp only [hdry, hforce, hrcon, Bool.not_true, Bool.false_eq_true,
      if_false]
    have hk : ((List.range 30).takeWhile
        (fun i => !(pollStopped env.poll i))).length = 30 := by
      rw [List.takeWhile_eq_self_iff.mpr ?_, List.length_range]
      intro i hi
      exact List.all_eq_true.mp hall i hi
    rw [hk]
    simp
  · intro cfg env s hab
    unfold step10
    simp only [hab, Bool.false_eq_true, if_false]
    split_ifs with h1 h2 <;> simp_all [bump]

/-- Claim C5, witness: the fallback equation instantiated at the concrete
poll-exhausted environment. -/
theorem c5_graceful_timeout_policy_witness :
    (shutdown_minecraft_server cfgW envPollExhausted.shutdownEnv
      "minecraft-server-0").1 =
    (delete_pod cfgW envPollExhausted.shutdownEnv.deleteOutcome
      "minecraft-server-0").1 :=
  c5_graceful_timeout_policy.1 cfgW envPollExhausted.shutdownEnv
    "minecraft-server-0" rfl rfl rfl (by decide)

/-- Claim C6, counterexample: with default flags (`force_restart = false`) a
failure of phase 8's `scaleTo(2)` aborts the session at step 8 with result
`false` — so a phase-8 inner failure can abort the session, contrary to the
claim. -/
theorem c6_counterexample :
    (perform_update cfgW envScale2Fail 3).map
      (fun p => (p.1, p.2.aborted, p.2.st.current_step)) =
      some (false, true, 8) ∧
    cfgW.force_restart = false := by
  decide

/-- Claim C6 (amended): phase 8 aborts exactly when `scaleTo(2)` fails and
`force_restart` is unset; when `scaleTo(2)` succeeded but `waitReady(1)`
fails, the phase-8 copy and routing switch of slot 1 are both skipped (and
the phase does not abort); when the slot-1 copy reports failure, the routing
switch is skipped. -/
theorem c6_phase8_policy (cfg : Config) (env : Env) (fuel : Nat) (s r : SRes)
    (hab : s.aborted = false) (h : step8 cfg env fuel s = some r) :
    (r.aborted = true ↔
      ((scale_statefulset cfg env.scale2Ok 2).1 = false ∧
       cfg.force_restart = false)) ∧
    ((scale_statefulset cfg env.scale2Ok 2).1 = true →
     (wait_for_pod_ready cfg env.wait1Ok (get_pod_name cfg 1)).1 = false →
     ∀ te ∈ r.tr, te ∈ s.tr ∨
       (te.ev ≠ Event.syncCall (get_pod_name cfg 1) Direction.fromBackup ∧
        te.ev ≠ Event.switchCall 1)) ∧
    (∀ b cs, sync_world_data cfg (get_pod_name cfg 1) Direction.fromBackup
        env.sync9 fuel = some (b, cs) → b = false →
     ∀ te ∈ r.tr, te ∈ s.tr ∨ te.ev ≠ Event.switchCall 1) := by
  cases hsc : (scale_statefulset cfg env.scale2Ok 2).1 with
  | false =>
    cases hforce : cfg.force_restart with
    | false =>
      simp only [step8, finish8, hab, hsc, hforce, Bool.not_false,
        Bool.false_eq_true, if_false, if_true] at h
      injection h with h
      subst h
      refine ⟨by simp, ?_, ?_⟩
      · intro h1 _
        exact absurd h1 (by simp)
      · intro b cs _ _
        simp only [List.append_assoc]
        refine forall_mem_append_left ?_
        simp only [List.forall_mem_append, forall_mem_tag,
          List.forall_mem_singleton, tag1]
        repeat' apply And.intro
        all_goals simp
    | true =>
      simp only [step8, finish8, hab, hsc, hforce, Bool.not_false,
        Bool.not_true, Bool.false_eq_true, if_false, if_true] at h
      injection h with h
      subst h
      refine ⟨by simp, ?_, ?_⟩
      · intro h1 _
        exact absurd h1 (by simp)
      · intro b cs _ _
        simp only [List.append_assoc]
        refine forall_mem_append_left ?_
        simp only [List.forall_mem_append, forall_mem_tag,
          List.forall_mem_singleton, tag1]
        repeat' apply And.intro
        all_goals simp
  | true =>
    cases hw : (wait_for_pod_ready cfg env.wait1Ok (get_pod_name cfg 1)).1 with
    | false =>
      simp only [step8, finish8, hab, hsc, hw, Bool.not_true, Bool.not_false,
        Bool.false_eq_true, if_false, if_true] at h
      injection h with h
      subst h
      refine ⟨by simp, ?_, ?_⟩
      · intro _ _
        simp only [List.append_assoc]
        refine forall_mem_append_left ?_
        simp only [List.forall_mem_append, forall_mem_tag,
          List.forall_mem_singleton, tag1]
        repeat' apply And.intro
        all_goals simp
      · intro b cs _ _
        simp only [List.append_assoc]
        refine forall_mem_append_left ?_
        simp only [List.forall_mem_append, forall_mem_tag,
          List.forall_mem_singleton, tag1]
        repeat' apply And.intro
        all_goals simp
    | true =>
      cases hsy : sync_world_data cfg (get_pod_name cfg 1)
          Direction.fromBackup env.sync9 fuel with
      | none =>
        simp only [step8, finish8, hab, hsc, hw, hsy, Bool.not_true,
          Bool.not_false, Bool.false_eq_true, if_false, if_true] at h
        exact absurd h (by simp)
      | some sy =>
        cases hsy1 : sy.1 with
        | false =>
          simp only [step8, finish8, hab, hsc, hw, hsy, hsy1, Bool.not_true,
            Bool.not_false, Bool.false_eq_true, if_false, if_true] at h
          injection h with h
          subst h
          refine ⟨by simp, ?_, ?_⟩
          · intro _ h2
            exact absurd h2 (by simp)
          · intro b cs _ _
            simp only [List.append_assoc]
            refine forall_mem_append_left ?_
            simp only [List.forall_mem_append, forall_mem_tag,
              List.forall_mem_singleton, tag1]
            repeat' apply And.intro
            all_goals simp
        | true =>
          simp only [step8, finish8, hab, hsc, hw, hsy, hsy1, Bool.not_true,
            Bool.not_false, Bool.false_eq_true, if_false, if_true] at h
          injection h with h
          subst h
          refine ⟨by simp, ?_, ?_⟩
          · intro _ h2
            exact absurd h2 (by simp)
          · intro b cs hbc hbf
            injection hbc with hbc
            rw [hbc] at hsy1
            simp [hbf] at hsy1

/-- Claim C6, witness: on the concrete scale-to-2 failure environment the
abort characterisation resolves to an abort. -/
theorem c6_phase8_policy_witness :
    ((step8 cfgW envScale2Fail 3 initSRes).getD initSRes).aborted = true :=
  ((c6_phase8_policy cfgW envScale2Fail 3 initSRes
      ((step8 cfgW envScale2Fail 3 initSRes).getD initSRes)
      rfl (by decide)).1).mpr (by decide)

/-- Claim C7: a foundational failure in phase 2 — `scaleTo(1)` failing, or
`scaleTo(1)` succeeding and `waitReady(0)` timing out — aborts the session
immediately: the result is `false`, the run is marked aborted, and
`current_step` never goes past 2, for every combination of flags. -/
theorem c7_foundational_failure_aborts (cfg : Config) (env : Env) (fuel : Nat)
    (hf : (scale_statefulset cfg env.scale1Ok 1).1 = false ∨
          ((scale_statefulset cfg env.scale1Ok 1).1 = true ∧
           (wait_for_pod_ready cfg env.wait0aOk (get_pod_name cfg 0)).1 = false)) :
    resultOf (perform_update cfg env fuel) = some false ∧
    abortedOf (perform_update cfg env fuel) = some true ∧
    stepOf (perform_update cfg env fuel) = some 2 := by
  have h1ab : (step1 cfg env initSRes).aborted = false := by
    rw [step1_ab]; rfl
  have h1cs : (step1 cfg env initSRes).st.current_step = 1 := by
    rw [step1_cs cfg env rfl]; rfl
  obtain ⟨hab2, hcs2⟩ := step2_abort cfg env h1ab hf
  have h6 : stage6 cfg env initSRes = step2 cfg env (step1 cfg env initSRes) := by
    unfold stage6
    rw [step3_skip cfg env hab2, step4_skip cfg env hab2,
      step5_skip cfg env hab2, step6_skip cfg env hab2]
  have hrp : run_phases cfg env fuel initSRes =
      some (step2 cfg env (step1 cfg env initSRes)) := by
    unfold run_phases
    rw [h6, step7_skip cfg env fuel hab2]
    simp only [Option.some_bind]
    rw [step8_skip cfg env fuel hab2]
    simp only [Option.some_bind]
    rw [step10_skip cfg env hab2, step11_skip cfg env fuel hab2]
    simp only [Option.map_some']
    rw [step12_skip cfg env hab2]
  have hfin : perform_update cfg env fuel =
      some (finalize (step2 cfg env (step1 cfg env initSRes))) := by
    rw [perform_update, hrp]; rfl
  refine ⟨?_, ?_, ?_⟩
  · simp only [resultOf, hfin, Option.map_some', finalize_fst, hab2]
    simp
  · simp only [abortedOf, hfin, Option.map_some', finalize_ab, hab2]
  · simp only [stepOf, hfin, Option.map_some', finalize_cs, hcs2, h1cs]

/-- Claim C7, witness: a concrete phase-2 scale failure aborts with result
`false`. -/
theorem c7_foundational_failure_aborts_witness :
    resultOf (perform_update cfgW envScale1Fail 1) = some false :=
  (c7_foundational_failure_aborts cfgW envScale1Fail 1
    (Or.inl (by decide))).1

/-- Claim C8, counterexample: `validate_world_data` is not a pure predicate
with the override left to the caller — on the same environment whose very
first manual check (the world-directory check) fails, it returns `true` when
`force_restart` is set and `false` when it is not, so the force override is
applied inside `validate` itself. -/
theorem c8_counterexample :
    (validate_world_data cfgForce validateEnvDirMissing "minecraft-server-0"
      "active").1 = true ∧
    (validate_world_data cfgW validateEnvDirMissing "minecraft-server-0"
      "active").1 = false ∧
    dirMissingB validateEnvDirMissing = true := by
  decide

/-- Claim C8 (amended): on its configmap-backed manual path,
`validate_world_data` checks the directory, then `level.dat`, then the
region-file count, and returns `true` exactly when all three checks pass *or*
`force_restart` is set: the force override is built into `validate` rather
than decided by the caller. -/
theorem c8_validate_override (cfg : Config) (env : ValidateEnv)
    (pod world_type : String)
    (hskip : cfg.skip_validation = false) (hdry : cfg.dry_run = false)
    (hmiss : validateScriptMissing env = true)
    (hcm : (env.cmOk && pyContains env.cmStdout "validate-world.sh") = true) :
    (validate_world_data cfg env pod world_type).1 =
      (((!dirMissingB env) && (!levelMissingB env) &&
        decide (regionCountOf env > 0)) || cfg.force_restart) := by
  unfold validate_world_data
  simp only [hskip, hdry, hmiss, hcm, Bool.false_eq_true, if_false, if_true]
  cases hd : dirMissingB env with
  | true => simp [hd]
  | false =>
    cases hl : levelMissingB env with
    | true => simp [hd, hl]
    | false =>
      by_cases hr : regionCountOf env > 0
      · simp [hd, hl, hr]
      · simp [hd, hl, hr]

/-- Claim C8, witness: the override equation instantiated at the concrete
directory-missing environment with `force_restart` set. -/
theorem c8_validate_override_witness :
    (validate_world_data cfgForce validateEnvDirMissing "minecraft-server-0"
      "active").1 =
      (((!dirMissingB validateEnvDirMissing) &&
        (!levelMissingB validateEnvDirMissing) &&
        decide (regionCountOf validateEnvDirMissing > 0)) ||
       cfgForce.force_restart) :=
  c8_validate_override cfgForce validateEnvDirMissing "minecraft-server-0"
    "active" rfl rfl (by decide) (by decide)

/-- Claim C9: with a password configured and dry-run off,
`get_online_players` returns `none` ("unknown") whenever the `list` response
cannot be parsed, and it returns a count `n` (in particular `0`) only when
the response actually parses to `n`. -/
theorem c9_unknown_not_zero (cfg : Config) (connect : Bool) (s : String)
    (hpw : strEmpty cfg.rcon_password = false) (hdry : cfg.dry_run = false) :
    (parse_player_count s = none →
      (get_online_players cfg connect (some s)).1 = none) ∧
    (∀ n : Int, (get_online_players cfg connect (some s)).1 = some n →
      parse_player_count s = some n) := by
  unfold get_online_players
  simp only [hpw, hdry, Bool.false_eq_true, if_false]
  cases connect with
  | false =>
    constructor
    · intro _; simp
    · intro n hn; simp at hn
  | true =>
    cases hp : parse_player_count s with
    | none =>
      constructor
      · intro _; simp [hp]
      · intro n hn; simp [hp] at hn
    | some m =>
      constructor
      · intro hc; exact absurd hc (by simp)
      · intro n hn
        simp at hn
        rw [hn]

/-- Claim C9, witness: a zero-player response parses to zero, extracted
through the theorem. -/
theorem c9_unknown_not_zero_witness :
    parse_player_count "There are 0 of a maximum of 20 players online:" =
      some 0 :=
  (c9_unknown_not_zero cfgW true
    "There are 0 of a maximum of 20 players online:" rfl rfl).2 0 (by decide)

/-- Claim C10: in an environment where the `world-sync.sh` probe keeps
finding the script and every execution of it fails, `sync_world_data` never
returns — the "fallback" on script failure is an unbounded self-recursive
retry of the same script, not a bounded fallback to the integrated sync: for
every fuel bound the model exhausts it. -/
theorem c10_sync_retry_unbounded :
    ∀ fuel, sync_world_data cfgW "minecraft-server-0" Direction.toBackup
      (fun _ => advSyncEnv) fuel = none := by
  intro fuel
  induction fuel with
  | zero => rfl
  | succ n ih =>
    have h : sync_world_data cfgW "minecraft-server-0" Direction.toBackup
        (fun _ => advSyncEnv) (n + 1) =
        Option.map (fun r => (r.1,
          [Cmd.execPod "minecraft-server-0" checkSyncScriptCmd,
           Cmd.execPod "minecraft-server-0"
             (runSyncScriptCmd Direction.toBackup)] ++ r.2))
          (sync_world_data cfgW "minecraft-server-0" Direction.toBackup
            (fun _ => advSyncEnv) n) := rfl
    rw [h, ih]
    rfl

end MCUpdate
